import Mathlib

/-!
# Verification of the postmark-email-agents core

Shallow embedding, in Lean 4, of the email-threading, webhook-ingestion,
actionable-extraction and retrieval logic of the repository, together with
theorems settling the specification claims about that logic.

Python integers are modelled as `Nat`/`Int` (with explicit `% 2^32` where
the MD5 hash needs 32-bit wrap-around), Python strings as `String`, Python
`None`/optional values as `Option`, and raised exceptions as explicit
result constructors.  Database state is passed explicitly through the
translated service functions.
-/

set_option maxRecDepth 4000

namespace PostmarkAgents

/-! ## Python truthiness helpers

`x or d` in Python yields `d` whenever `x` is falsy (`None`, `0`, `""`). -/

/-- Python `x or d` for an optional integer (`None` and `0` are falsy). -/
def pyOrInt (x : Option Int) (d : Int) : Int :=
  match x with
  | none => d
  | some v => if v = 0 then d else v

/-- Python `x or d` for an optional string (`None` and `""` are falsy). -/
def pyOrStr (x : Option String) (d : String) : String :=
  match x with
  | none => d
  | some v => if v = "" then d else v

/-- Python `sep.join(l)`. -/
def strJoin (sep : String) : List String → String
  | [] => ""
  | [x] => x
  | x :: y :: xs => x ++ sep ++ strJoin sep (y :: xs)

/-! ## Python string primitives

Defined over the underlying character lists so that every operation is
structurally recursive (and hence evaluable inside proofs).  Python
strings are sequences of code points, so `List Char` is a faithful
carrier. -/

/-- The whitespace characters stripped by Python `str.strip()`. -/
def pySpaceChar (c : Char) : Bool :=
  " \t\n\r\x0b\x0c".data.contains c

/-- Python `s.strip()`. -/
def pyStrip (s : String) : String :=
  ⟨((s.data.dropWhile pySpaceChar).reverse.dropWhile pySpaceChar).reverse⟩

/-- Python `s.lower()` (ASCII case mapping, which covers the subjects and
header names this development evaluates). -/
def pyLower (s : String) : String :=
  ⟨s.data.map Char.toLower⟩

/-- Python `s.startswith(p)`. -/
def pyStartsWith (s p : String) : Bool :=
  p.data.isPrefixOf s.data

/-- Python `s[n:]` (drop the first `n` code points). -/
def pyDrop (s : String) (n : Nat) : String :=
  ⟨s.data.drop n⟩

/-- Python `len(s)` (number of code points). -/
def pyLen (s : String) : Nat :=
  s.data.length

/-- Lexicographic comparison of code-point lists (Python string `<`). -/
def charListLt : List Char → List Char → Bool
  | [], [] => false
  | [], _ :: _ => true
  | _ :: _, [] => false
  | a :: as, b :: bs =>
    if Nat.blt a.toNat b.toNat then true
    else if Nat.blt b.toNat a.toNat then false
    else charListLt as bs

/-- Python string `<` as a boolean. -/
def strLt (a b : String) : Bool := charListLt a.data b.data

/-- Insert a string into a sorted list, before the first element not less
than it. -/
def insertStr (x : String) : List String → List String
  | [] => [x]
  | y :: ys => if strLt y x then y :: insertStr x ys else x :: y :: ys

/-- Python `sorted(l)` for a list of strings: stable ascending
lexicographic order. -/
def sortStrings (l : List String) : List String :=
  l.foldr insertStr []

/-! ## MD5 (used by `EmailThreadService.generate_thread_id`)

The source hashes the thread key data with `hashlib.md5(...).hexdigest()`.
Words are naturals reduced mod `2^32`; the message is a list of byte
values. -/

/-- Truncate to a 32-bit word. -/
def w32 (n : Nat) : Nat := n % 4294967296

/-- 32-bit left rotation (input assumed `< 2^32`). -/
def rotl32 (x s : Nat) : Nat := ((x <<< s) ||| (x >>> (32 - s))) % 4294967296

/-- 32-bit bitwise complement (input assumed `< 2^32`). -/
def not32 (x : Nat) : Nat := 4294967295 - x

/-- The 64 MD5 sine-derived round constants. -/
def md5K : List Nat :=
  [0xd76aa478, 0xe8c7b756, 0x242070db, 0xc1bdceee,
   0xf57c0faf, 0x4787c62a, 0xa8304613, 0xfd469501,
   0x698098d8, 0x8b44f7af, 0xffff5bb1, 0x895cd7be,
   0x6b901122, 0xfd987193, 0xa679438e, 0x49b40821,
   0xf61e2562, 0xc040b340, 0x265e5a51, 0xe9b6c7aa,
   0xd62f105d, 0x02441453, 0xd8a1e681, 0xe7d3fbc8,
   0x21e1cde6, 0xc33707d6, 0xf4d50d87, 0x455a14ed,
   0xa9e3e905, 0xfcefa3f8, 0x676f02d9, 0x8d2a4c8a,
   0xfffa3942, 0x8771f681, 0x6d9d6122, 0xfde5380c,
   0xa4beea44, 0x4bdecfa9, 0xf6bb4b60, 0xbebfbc70,
   0x289b7ec6, 0xeaa127fa, 0xd4ef3085, 0x04881d05,
   0xd9d4d039, 0xe6db99e5, 0x1fa27cf8, 0xc4ac5665,
   0xf4292244, 0x432aff97, 0xab9423a7, 0xfc93a039,
   0x655b59c3, 0x8f0ccc92, 0xffeff47d, 0x85845dd1,
   0x6fa87e4f, 0xfe2ce6e0, 0xa3014314, 0x4e0811a1,
   0xf7537e82, 0xbd3af235, 0x2ad7d2bb, 0xeb86d391]

/-- The 64 MD5 per-round shift amounts. -/
def md5S : List Nat :=
  [7, 12, 17, 22, 7, 12, 17, 22, 7, 12, 17, 22, 7, 12, 17, 22,
   5, 9, 14, 20, 5, 9, 14, 20, 5, 9, 14, 20, 5, 9, 14, 20,
   4, 11, 16, 23, 4, 11, 16, 23, 4, 11, 16, 23, 4, 11, 16, 23,
   6, 10, 15, 21, 6, 10, 15, 21, 6, 10, 15, 21, 6, 10, 15, 21]

/-- One MD5 round: transforms the `(a, b, c, d)` state at round `i` with
message words `M`. -/
def md5Round (M : List Nat) (st : Nat × Nat × Nat × Nat) (i : Nat) :
    Nat × Nat × Nat × Nat :=
  let (a, b, c, d) := st
  let fg : Nat × Nat :=
    if i < 16 then ((b &&& c) ||| (not32 b &&& d), i)
    else if i < 32 then ((b &&& d) ||| (c &&& not32 d), (5 * i + 1) % 16)
    else if i < 48 then (b ^^^ c ^^^ d, (3 * i + 5) % 16)
    else (c ^^^ (b ||| not32 d), (7 * i) % 16)
  let f := (fg.1 + a + md5K.getD i 0 + M.getD fg.2 0) % 4294967296
  (d, (b + rotl32 f (md5S.getD i 0)) % 4294967296, b, c)

/-- Decode the `j`-th little-endian 32-bit word of a 64-byte chunk. -/
def chunkWord (chunk : List Nat) (j : Nat) : Nat :=
  chunk.getD (4 * j) 0 + 256 * chunk.getD (4 * j + 1) 0 +
    65536 * chunk.getD (4 * j + 2) 0 + 16777216 * chunk.getD (4 * j + 3) 0

/-- Process one 64-byte chunk, updating the running MD5 state. -/
def md5Chunk (st : Nat × Nat × Nat × Nat) (chunk : List Nat) :
    Nat × Nat × Nat × Nat :=
  let M := (List.range 16).map (chunkWord chunk)
  let r := (List.range 64).foldl (md5Round M) st
  ((st.1 + r.1) % 4294967296, (st.2.1 + r.2.1) % 4294967296,
   (st.2.2.1 + r.2.2.1) % 4294967296, (st.2.2.2 + r.2.2.2) % 4294967296)

/-- Split a byte list into 64-byte chunks (the padded message length is a
multiple of 64). -/
def chunks64 (l : List Nat) : List (List Nat) :=
  (List.range ((l.length + 63) / 64)).map (fun i => (l.drop (64 * i)).take 64)

/-- Little-endian byte expansion (`k` bytes) of a natural number. -/
def leBytes (k n : Nat) : List Nat :=
  (List.range k).map (fun i => (n >>> (8 * i)) % 256)

/-- MD5 padding: append `0x80`, zero bytes up to 56 mod 64, then the
64-bit little-endian bit length. -/
def md5Pad (msg : List Nat) : List Nat :=
  let len := msg.length
  let padLen := (119 - len % 64) % 64
  msg ++ [0x80] ++ List.replicate padLen 0 ++
    leBytes 8 ((8 * len) % 18446744073709551616)

/-- MD5 digest (16 bytes) of a byte list. -/
def md5Bytes (msg : List Nat) : List Nat :=
  let st := (chunks64 (md5Pad msg)).foldl md5Chunk
    (0x67452301, 0xefcdab89, 0x98badcfe, 0x10325476)
  leBytes 4 st.1 ++ leBytes 4 st.2.1 ++ leBytes 4 st.2.2.1 ++ leBytes 4 st.2.2.2

/-- Lowercase hexadecimal digits. -/
def hexDigits : List Char :=
  "0123456789abcdef".data

/-- Two-character lowercase hex rendering of one byte. -/
def byteToHex (b : Nat) : List Char :=
  [hexDigits.getD (b / 16 % 16) '0', hexDigits.getD (b % 16) '0']

/-- UTF-8 bytes of a string, as naturals. -/
def utf8Bytes (s : String) : List Nat :=
  (s.data.flatMap String.utf8EncodeChar).map UInt8.toNat

/-- `hashlib.md5(s.encode()).hexdigest()`. -/
def md5hex (s : String) : String :=
  ⟨((md5Bytes (utf8Bytes s)).map byteToHex).flatten⟩

/-! ## Thread assignment engine (`src/app/modules/emails/thread_service.py`)

`EmailThreadService` keyed threads by an MD5 hash of the normalized
subject plus the sorted participant list, and maintained per-thread
metadata.  Database rows become explicit record lists. -/

/-- The reply/forward markers scanned by `_normalize_subject`, in source
order. -/
def replyMarkers : List String := ["re:", "fwd:", "fw:", "forward:", "reply:"]

/-- One iteration of the `for prefix in prefixes` loop body of
`_normalize_subject`: strip the marker (and surrounding whitespace) when
the current string starts with it, else leave the string unchanged. -/
def stripMarkerStep (normalized p : String) : String :=
  if pyStartsWith normalized p then pyStrip (pyDrop normalized (pyLen p))
  else normalized

/-- `EmailThreadService._normalize_subject`: empty subjects map to `""`;
otherwise trim, lowercase, then run the marker loop. -/
def normalize_subject (subject : String) : String :=
  if subject = "" then ""
  else replyMarkers.foldl stripMarkerStep (pyLower (pyStrip subject))

/-- The pre-hash key data of `generate_thread_id`:
`f"{normalized_subject}:{':'.join(sorted_participants)}"`. -/
def threadKeyData (subject : String) (participants : List String) : String :=
  normalize_subject subject ++ ":" ++ strJoin ":" (sortStrings participants)

/-- `EmailThreadService.generate_thread_id`: MD5 hex digest of the key
data. -/
def generate_thread_id (subject : String) (participants : List String) : String :=
  md5hex (threadKeyData subject participants)

/-- An `email_threads` row (`EmailThread` model). -/
structure ThreadRow where
  id : Nat
  thread_id : String
  subject : String
  thread_summary : String
  email_count : Int
  first_email_id : Option Nat
  last_email_id : Option Nat
  deriving Repr, DecidableEq

/-- An `emails` row (`Email` model), restricted to the fields the
verified flows read or write.  `thread_position` carries the column
default `0` from creation. -/
structure EmailRow where
  id : Nat
  user_id : Nat
  raw_email_id : Nat
  message_id : String
  email_identifier : String
  parent_email_identifier : Option String
  parent_email_id : Option Nat
  subject : String
  thread_id : Option Nat
  thread_position : Int
  deriving Repr, DecidableEq

/-- The shared relational store touched by threading and ingestion. -/
structure Store where
  emails : List EmailRow
  threads : List ThreadRow
  nextThreadRowId : Nat
  deriving Repr, DecidableEq

/-- `EmailThreadService.create_or_get_thread`: compute the key, return an
existing thread with that key unchanged, else insert a fresh thread with
`email_count = 0` and the summary defaulted Python-style. -/
def create_or_get_thread (subject : String) (participants : List String)
    (thread_summary : Option String) (st : Store) : ThreadRow × Store :=
  let tid := generate_thread_id subject participants
  match st.threads.find? (fun t => t.thread_id == tid) with
  | some existing => (existing, st)
  | none =>
    let newThread : ThreadRow :=
      { id := st.nextThreadRowId
        thread_id := tid
        subject := subject
        thread_summary :=
          pyOrStr thread_summary
            ("Email thread: " ++ pyOrStr (some subject) "No subject")
        email_count := 0
        first_email_id := none
        last_email_id := none }
    (newThread,
      { st with
          threads := st.threads ++ [newThread]
          nextThreadRowId := st.nextThreadRowId + 1 })

/-- `SELECT max(thread_position) WHERE thread_id = t`: `none` models SQL
`NULL` (no matching rows). -/
def maxThreadPosition (st : Store) (t : Nat) : Option Int :=
  let ps := (st.emails.filter (fun e => e.thread_id == some t)).map
    (·.thread_position)
  match ps with
  | [] => none
  | p :: rest => some (rest.foldl max p)

/-- Update the single email row with the given id. -/
def updateEmail (st : Store) (emailId : Nat) (f : EmailRow → EmailRow) : Store :=
  { st with emails := st.emails.map (fun e => if e.id = emailId then f e else e) }

/-- Update the single thread row with the given id. -/
def updateThread (st : Store) (threadRowId : Nat) (f : ThreadRow → ThreadRow) :
    Store :=
  { st with
      threads := st.threads.map (fun t => if t.id = threadRowId then f t else t) }

/-- `EmailThreadService.add_email_to_thread`: set `email.thread_id`, read
`max(thread_position)` over the thread (the freshly assigned email is
visible to the query via autoflush), apply Python's `scalar() or -1`,
assign `max + 1`, bump `email_count` and the first/last pointers. -/
def add_email_to_thread (emailId threadRowId : Nat) (st : Store) : Store :=
  let st1 := updateEmail st emailId (fun e => { e with thread_id := some threadRowId })
  let max_position := pyOrInt (maxThreadPosition st1 threadRowId) (-1)
  let st2 := updateEmail st1 emailId
    (fun e => { e with thread_position := max_position + 1 })
  updateThread st2 threadRowId (fun t =>
    { t with
        email_count := t.email_count + 1
        first_email_id := match t.first_email_id with
          | none => some emailId
          | some f => some f
        last_email_id := some emailId })

/-! ## Webhook ingestion pipeline (`src/app/modules/emails/process_webhook.py`)

`WebhookProcessingService` validates the payload, persists a raw record,
checks duplication, persists the structured email and assigns it to a
thread.  User resolution, payload validation and attachment file writes
are external collaborators; the model receives an already validated
payload and a resolved `user_id`. -/

/-- A header `(Name, Value)` pair (`EmailHeaderData`). -/
structure HeaderData where
  Name : String
  Value : String
  deriving Repr, DecidableEq

/-- Sender/recipient info (`EmailSender` / `EmailRecipientInfo`). -/
structure RecipientInfo where
  Email : String
  Name : Option String := none
  MailboxHash : String := ""
  deriving Repr, DecidableEq

/-- Attachment data from the webhook (`EmailAttachmentData`). -/
structure AttachmentData where
  Name : String
  Content : String
  ContentType : String
  ContentLength : Nat
  ContentID : Option String := none
  deriving Repr, DecidableEq

/-- The validated webhook payload (`PostmarkWebhookRequest`), restricted
to the fields the verified flows read. -/
structure WebhookPayload where
  From : String
  FromFull : RecipientInfo
  ToFull : List RecipientInfo := []
  CcFull : List RecipientInfo := []
  BccFull : List RecipientInfo := []
  Subject : String := ""
  MessageID : String
  Date : String := ""
  TextBody : Option String := none
  StrippedTextReply : Option String := none
  Headers : List HeaderData := []
  Attachments : List AttachmentData := []
  deriving Repr, DecidableEq

/-- The header names scanned by `extract_email_identifier`, in priority
order. -/
def priorityHeaders : List String :=
  ["x-microsoft-original-message-id", "x-gmail-original-message-id", "message-id"]

/-- `WebhookProcessingService.extract_email_identifier`: first matching
priority header (priority order outranks position order); `none` when no
header matches — the service then substitutes a generated
`generated-<uuid4>` fallback, modelled by the `gen` argument of the
ingestion flow. -/
def extract_email_identifier (headers : List HeaderData) : Option String :=
  priorityHeaders.firstM (fun p =>
    (headers.find? (fun h => pyLower h.Name == p && h.Value != "")).map
      (fun h => pyStrip h.Value))

/-- `WebhookProcessingService.extract_parent_email_identifier`: first
`in-reply-to` or `references` header with a non-empty value. -/
def extract_parent_email_identifier (headers : List HeaderData) :
    Option String :=
  (headers.find? (fun h =>
      (pyLower h.Name == "in-reply-to" || pyLower h.Name == "references") &&
        h.Value != "")).map
    (fun h => pyStrip h.Value)

/-- A recipient row (`EmailRecipient`), carrying its type tag. -/
inductive RecipientType where
  | FROM | TO | CC | BCC
  deriving Repr, DecidableEq

/-- An `email_recipients` row. -/
structure RecipientRow where
  email_id : Nat
  recipient_type : RecipientType
  email_address : String
  deriving Repr, DecidableEq

/-- `ProcessingStatus` of a raw email record. -/
inductive ProcessingStatus where
  | PENDING | PROCESSED | FAILED
  deriving Repr, DecidableEq

/-- An `emails_raw` row (`RawEmail`). -/
structure RawRow where
  id : Nat
  processing_status : ProcessingStatus
  error_message : Option String := none
  deriving Repr, DecidableEq

/-- Full ingestion-side database state. -/
structure IngestState where
  store : Store
  raws : List RawRow
  recipients : List RecipientRow
  attachmentsCount : List (Nat × Nat)
  headersCount : List (Nat × Nat)
  nextEmailId : Nat
  nextRawId : Nat
  deriving Repr, DecidableEq

/-- `WebhookProcessingService.save_raw_email`: insert a PENDING raw row.
Returns the new row and the updated state. -/
def save_raw_email (st : IngestState) : RawRow × IngestState :=
  let raw : RawRow := { id := st.nextRawId, processing_status := .PENDING }
  (raw, { st with raws := st.raws ++ [raw], nextRawId := st.nextRawId + 1 })

/-- `WebhookProcessingService.check_duplicate_email`: any existing email
whose `message_id` or `email_identifier` matches. -/
def check_duplicate_email (message_id email_identifier : String)
    (st : IngestState) : Option EmailRow :=
  st.store.emails.find? (fun e =>
    e.message_id == message_id || e.email_identifier == email_identifier)

/-- `WebhookProcessingService.get_parent_email_id`: resolve a parent
identifier to an email id. -/
def get_parent_email_id (parent_identifier : Option String)
    (st : IngestState) : Option Nat :=
  match parent_identifier with
  | none => none
  | some pid =>
    if pid = "" then none
    else (st.store.emails.find? (fun e => e.email_identifier == pid)).map (·.id)

/-- `WebhookProcessingService.save_recipients`: one FROM row, then
TO/CC/BCC rows, in payload order. -/
def save_recipients (payload : WebhookPayload) (email_id : Nat)
    (st : IngestState) : List RecipientRow × IngestState :=
  let rows :=
    [{ email_id, recipient_type := .FROM,
       email_address := payload.FromFull.Email : RecipientRow }] ++
    payload.ToFull.map (fun r =>
      { email_id, recipient_type := .TO, email_address := r.Email }) ++
    payload.CcFull.map (fun r =>
      { email_id, recipient_type := .CC, email_address := r.Email }) ++
    payload.BccFull.map (fun r =>
      { email_id, recipient_type := .BCC, email_address := r.Email })
  (rows, { st with recipients := st.recipients ++ rows })

/-- Points at which the thread-assignment `try` block of
`_assign_email_to_thread` can raise: nowhere, inside
`create_or_get_thread`, or inside `add_email_to_thread` (whose first
statement `email.thread_id = thread.id` has by then already run — the
first point at which it can fail is its database query). -/
inductive ThreadFailure where
  | noFail | atCreate | atAdd
  deriving Repr, DecidableEq

/-- `WebhookProcessingService._generate_thread_summary` (subject line,
optional body preview, sender, attachment count).  The exact text is
irrelevant to the claims; the structure follows the source. -/
def generate_thread_summary (payload : WebhookPayload) : String :=
  let subject := pyOrStr (some payload.Subject) "No subject"
  let preview := match payload.TextBody with
    | some tb => "\n\nPreview: " ++ pyStrip tb
    | none => match payload.StrippedTextReply with
      | some sr => "\n\nPreview: " ++ pyStrip sr
      | none => ""
  "Email thread: " ++ subject ++ preview ++ "\n\nStarted by: " ++ payload.From ++
    (if payload.Attachments.isEmpty then ""
     else "\n\nAttachments: " ++ toString payload.Attachments.length ++ " file(s)")

/-- The participant list built by `_assign_email_to_thread`:
`sorted(list(set([From] + [to/cc recipient addresses])))`. -/
def threadParticipants (payload : WebhookPayload)
    (recipients : List RecipientRow) : List String :=
  let base := payload.From ::
    (recipients.filter (fun r =>
      r.recipient_type == .TO || r.recipient_type == .CC)).map
      (·.email_address)
  sortStrings base.dedup

/-- `WebhookProcessingService._assign_email_to_thread`: build the
participant set, create-or-get the thread and add the email to it; any
exception inside the `try` is caught, logged and discarded. -/
def assign_email_to_thread (fail : ThreadFailure) (payload : WebhookPayload)
    (email_id : Nat) (recipients : List RecipientRow) (st : IngestState) :
    IngestState :=
  match fail with
  | .atCreate => st
  | .atAdd =>
    let (thread, store1) := create_or_get_thread payload.Subject
      (threadParticipants payload recipients)
      (some (generate_thread_summary payload)) st.store
    { st with
        store := updateEmail store1 email_id
          (fun e => { e with thread_id := some thread.id }) }
  | .noFail =>
    let (thread, store1) := create_or_get_thread payload.Subject
      (threadParticipants payload recipients)
      (some (generate_thread_summary payload)) st.store
    { st with store := add_email_to_thread email_id thread.id store1 }

/-- `WebhookProcessingService.process_webhook_email`: extract identifiers,
return any duplicate unchanged, else insert the email with its child rows,
assign it to a thread and mark the raw record PROCESSED.  `gen` is the
`generated-<uuid4>` fallback identifier. -/
def process_webhook_email (fail : ThreadFailure) (gen : String)
    (raw : RawRow) (payload : WebhookPayload) (user_id : Nat)
    (st : IngestState) : EmailRow × IngestState :=
  let email_identifier := (extract_email_identifier payload.Headers).getD gen
  let parent_identifier := extract_parent_email_identifier payload.Headers
  let parent_email_id := get_parent_email_id parent_identifier st
  match check_duplicate_email payload.MessageID email_identifier st with
  | some existing => (existing, st)
  | none =>
    let newEmail : EmailRow :=
      { id := st.nextEmailId
        user_id
        raw_email_id := raw.id
        message_id := payload.MessageID
        email_identifier
        parent_email_identifier := parent_identifier
        parent_email_id
        subject := payload.Subject
        thread_id := none
        thread_position := 0 }
    let st1 := { st with
      store := { st.store with emails := st.store.emails ++ [newEmail] }
      nextEmailId := st.nextEmailId + 1 }
    let (recipients, st2) := save_recipients payload newEmail.id st1
    let st3 := assign_email_to_thread fail payload newEmail.id recipients st2
    let st4 := { st3 with
      attachmentsCount :=
        st3.attachmentsCount ++ [(newEmail.id, payload.Attachments.length)]
      headersCount := st3.headersCount ++ [(newEmail.id, payload.Headers.length)] }
    let st5 := { st4 with
      raws := st4.raws.map (fun r =>
        if r.id = raw.id then { r with processing_status := .PROCESSED } else r) }
    (((st5.store.emails.find? (fun e => e.id == newEmail.id)).getD newEmail), st5)

/-- The dictionary returned by `process_postmark_webhook`. -/
structure WebhookResult where
  email_id : Nat
  raw_email_id : Nat
  message_id : String
  attachments_count : Nat
  duplicate : String
  deriving Repr, DecidableEq

/-- `WebhookProcessingService.process_postmark_webhook` (success path):
save the raw record, process the structured email, and answer with the
result dictionary — whose `duplicate` entry is the literal `"false"` on
every path through this function. -/
def process_postmark_webhook (fail : ThreadFailure) (gen : String)
    (payload : WebhookPayload) (user_id : Nat) (st : IngestState) :
    WebhookResult × IngestState :=
  let (raw, st1) := save_raw_email st
  let (email, st2) := process_webhook_email fail gen raw payload user_id st1
  ({ email_id := email.id
     raw_email_id := raw.id
     message_id := email.message_id
     attachments_count := payload.Attachments.length
     duplicate := "false" }, st2)

/-- `WebhookProcessingService.parse_date`: `parsedate_to_datetime` is the
standard-library parser (external), modelled as an oracle returning
`none` on unparseable input.  On parse failure the handler evaluates
`datetime.now(datetime.timezone.utc)`, but `datetime` names the class
imported with `from datetime import datetime`, which has no `timezone`
attribute, so the lookup raises `AttributeError` out of `parse_date`
instead of producing the current time. -/
def parse_date (parsedate : String → Option Int) (date_str : String) :
    Except String Int :=
  match parsedate date_str with
  | some dt => .ok dt
  | none =>
    .error
      "AttributeError: type object 'datetime.datetime' has no attribute 'timezone'"

/-! ## Actionable extraction orchestrator
(`src/app/modules/actionables/actionables.py` and
`agents/agent_service.py`)

Each agent task yields either a Python dict or (only on paths that escape
the task's own `try`) an exception object; `run_all_agents` gathers the
three tasks with `return_exceptions=True` and converts exception objects
into failure dicts. -/

/-- `ActionablesProcessingStatus`. -/
inductive ActStatus where
  | PENDING | PROCESSING | PROCESSED | FAILED
  deriving Repr, DecidableEq

/-- The actionables columns of one email row. -/
structure ActState where
  status : ActStatus
  error_message : Option String := none
  processed_at_set : Bool := false
  deriving Repr, DecidableEq

/-- `update_email_actionables_status`: set the status, set
`actionables_processed_at` only for PROCESSED, and overwrite the error
message only when one is supplied and truthy. -/
def update_email_actionables_status (status : ActStatus)
    (error_message : Option String) (st : ActState) : ActState :=
  { status
    processed_at_set := status == .PROCESSED
    error_message :=
      match error_message with
      | some e => if e = "" then st.error_message else some e
      | none => st.error_message }

/-- The dict produced by one `run_*_agent` call:
`{"success": True, "data": ...}` or `{"success": False, "error": ...}`. -/
structure AgentDict where
  success : Bool
  data : Option String := none
  error : Option String := none
  deriving Repr, DecidableEq

/-- A value sitting in one slot of the `asyncio.gather` result: a dict,
or an exception object (possible only when a task escapes its own
`except`, e.g. via a `BaseException`). -/
inductive PyVal where
  | dict (d : AgentDict)
  | exc (msg : String)
  deriving Repr, DecidableEq

/-- What the underlying agent run does: produce output, or raise (the
task's own `except Exception` then yields a failure dict). -/
inductive AgentOutcome where
  | outputs (data : String)
  | raises (msg : String)
  deriving Repr, DecidableEq

/-- `AgentService.run_calendar_agent` / `run_notes_agent` /
`run_shopping_agent`: wrap the agent run, converting a raised exception
into `{"success": False, "error": str(e)}`. -/
def run_agent_task (o : AgentOutcome) : AgentDict :=
  match o with
  | .outputs d => { success := true, data := some d }
  | .raises m => { success := false, error := some m }

/-- Python `isinstance(x, Exception)` for a gathered slot value (with
`results.get(k)` possibly returning `None`, which is not an
exception). -/
def isExceptionVal : Option PyVal → Bool
  | some (.exc _) => true
  | _ => false

/-- The aggregate dict built by `AgentService.run_all_agents`. -/
structure AllAgentsResults where
  calendar : PyVal
  notes : PyVal
  shopping : PyVal
  deriving Repr, DecidableEq

/-- `run_all_agents`: gather the three tasks, then replace any exception
object by a `{"success": False, "error": str(e)}` dict, so the returned
mapping never holds an exception. -/
def run_all_agents (calendar notes shopping : PyVal) : AllAgentsResults :=
  let conv : PyVal → PyVal := fun v =>
    match v with
    | .exc m => .dict { success := false, error := some m }
    | .dict d => .dict d
  { calendar := conv calendar, notes := conv notes, shopping := conv shopping }

/-- The dictionary returned by `process_actionables`: the per-agent
results, or the bare `{"error": "Failed to process actionables."}` dict
when anything inside its `try` raised. -/
inductive ProcessActionablesResult where
  | results (r : AllAgentsResults)
  | errorDict
  deriving Repr, DecidableEq

/-- `results.get(key)` on the dictionary returned by
`process_actionables`. -/
def getSlot (r : ProcessActionablesResult) (key : String) : Option PyVal :=
  match r with
  | .errorDict => none
  | .results r =>
    if key = "calendar" then some r.calendar
    else if key = "notes" then some r.notes
    else if key = "shopping" then some r.shopping
    else none

/-- `process_actionables`: run all agents inside a `try` that converts
any escape (`orchRaises`) into the bare error dict. -/
def process_actionables (orchRaises : Bool) (calendar notes shopping : PyVal) :
    ProcessActionablesResult :=
  if orchRaises then .errorDict
  else .results (run_all_agents calendar notes shopping)

/-- `f"{label}: {str(results[k])}"` for a slot holding an exception
object (`str` of an exception is its message). -/
def strErr (label : String) (v : Option PyVal) : String :=
  label ++ ": " ++
    (match v with
     | some (.exc m) => m
     | some (.dict _) => ""
     | none => "")

/-- `process_actionables_detached`: guard against a falsy `email_id`,
persist PROCESSING, run the orchestrator, collect the slots that are
exception instances into `errors`, and persist FAILED (with the joined
message) or PROCESSED accordingly. -/
def process_actionables_detached (email_id : Nat) (orchRaises : Bool)
    (calendar notes shopping : PyVal) (st : ActState) : ActState :=
  if email_id = 0 then st
  else
    let st1 := update_email_actionables_status .PROCESSING none st
    let results := process_actionables orchRaises calendar notes shopping
    let errors :=
      (if isExceptionVal (getSlot results "calendar") then
        [strErr "Calendar" (getSlot results "calendar")] else []) ++
      (if isExceptionVal (getSlot results "notes") then
        [strErr "Notes" (getSlot results "notes")] else []) ++
      (if isExceptionVal (getSlot results "shopping") then
        [strErr "Shopping" (getSlot results "shopping")] else [])
    if errors ≠ [] then
      update_email_actionables_status .FAILED (some (strJoin "; " errors)) st1
    else
      update_email_actionables_status .PROCESSED none st1

/-! ## Retrieval layer (`get_emails.py`, `thread_service.py`,
`models/request.py`, `response.py`) -/

/-- The allow-list of `EmailRetrievalService._validate_sort_column`. -/
def allowedSortColumns : List String :=
  ["sent_at", "processed_at", "from_email", "subject", "spam_score",
   "message_id", "id", "created_at"]

/-- `EmailRetrievalService._validate_sort_column`: non-allow-listed
columns silently fall back to `"sent_at"`. -/
def validate_sort_column (sort_by : String) : String :=
  if sort_by ∈ allowedSortColumns then sort_by else "sent_at"

/-- The allow-list of `EmailListRequest.validate_sort_by` (request
model). -/
def emailSortAllowedFields : List String :=
  ["sent_at", "processed_at", "from_email", "subject", "spam_score",
   "message_id"]

/-- `EmailListRequest.validate_sort_by`: raise `ValueError` for any value
outside the allow-list (pydantic turns this into a validation error
before the service runs). -/
def email_validate_sort_by (v : String) : Except String String :=
  if v ∈ emailSortAllowedFields then .ok v
  else .error "sort_by must be one of: ..."

/-- The allow-list of `EmailThreadListRequest.validate_sort_by`. -/
def threadSortAllowedFields : List String :=
  ["created_at", "updated_at", "subject", "email_count", "thread_id"]

/-- `EmailThreadListRequest.validate_sort_by`. -/
def thread_validate_sort_by (v : String) : Except String String :=
  if v ∈ threadSortAllowedFields then .ok v
  else .error "sort_by must be one of: ..."

/-- The attribute names of the `EmailThread` model class (columns and
relationships), i.e. the names for which `hasattr(EmailThread, sort_by)`
holds in `get_threads_with_pagination`. -/
def emailThreadAttrNames : List String :=
  ["id", "thread_id", "subject", "thread_summary", "created_at",
   "updated_at", "email_count", "first_email_id", "last_email_id",
   "emails", "first_email", "last_email"]

/-- The `ORDER BY` column chosen by
`EmailThreadService.get_threads_with_pagination`: `hasattr`-guarded
attribute lookup; `none` means no ordering clause is applied at all. -/
def threadQueryOrder (sort_by : String) : Option String :=
  if sort_by ∈ emailThreadAttrNames then some sort_by else none

/-- A `PaginationInfo` response record. -/
structure PaginationInfo where
  page : Nat
  limit : Nat
  total_items : Nat
  total_pages : Nat
  has_next : Bool
  has_previous : Bool
  deriving Repr, DecidableEq

/-- `PaginationInfo.create`.  The pydantic field constraints (`page ≥ 1`,
`1 ≤ limit ≤ 1000`, `total_items ≥ 0`) make `Nat` a faithful carrier;
`//` is Python floor division. -/
def PaginationInfo.create (page limit total_items : Nat) : PaginationInfo :=
  let total_pages := if total_items > 0 then (total_items + limit - 1) / limit else 0
  { page
    limit
    total_items
    total_pages
    has_next := decide (page < total_pages)
    has_previous := decide (page > 1) }

/-! ## Helper notions and lemmas shared by the claim theorems -/

/-- Strip exactly the given markers in sequence: each listed marker must
match at the front of the current string and is removed (with trimming);
`none` if one does not match.  Used to state that `_normalize_subject`
strips a subsequence of the marker list — each marker at most once, in
list order. -/
def stripExactSeq : List String → String → Option String
  | [], t => some t
  | p :: ps, t =>
    if pyStartsWith t p then stripExactSeq ps (pyStrip (pyDrop t (pyLen p)))
    else none

/-- The marker loop strips exactly some subsequence of the marker list. -/
theorem foldl_stripMarkerStep_subseq (markers : List String) (t : String) :
    ∃ l, l.Sublist markers ∧
      stripExactSeq l t = some (markers.foldl stripMarkerStep t) := by
  induction markers generalizing t with
  | nil => exact ⟨[], List.Sublist.refl _, rfl⟩
  | cons p ps ih =>
    by_cases h : pyStartsWith t p
    · obtain ⟨l, hl, he⟩ := ih (pyStrip (pyDrop t (pyLen p)))
      refine ⟨p :: l, hl.cons₂ p, ?_⟩
      simpa [stripExactSeq, h, List.foldl_cons, stripMarkerStep] using he
    · obtain ⟨l, hl, he⟩ := ih t
      refine ⟨l, hl.cons p, ?_⟩
      simpa [List.foldl_cons, stripMarkerStep, h] using he

/-- A `find?` over a list with no match, extended by a matching element,
returns that element. -/
theorem find?_append_singleton {α : Type} (p : α → Bool) (l : List α) (x : α)
    (hl : l.find? p = none) (hx : p x = true) :
    (l ++ [x]).find? p = some x := by
  induction l with
  | nil => simp [List.find?, hx]
  | cons a as ih =>
    rw [List.find?_eq_none] at hl
    have ha : p a = false := by
      have := hl a (by simp)
      simpa using this
    have has : as.find? p = none := by
      rw [List.find?_eq_none]
      exact fun b hb => hl b (by simp [hb])
    simpa [List.find?_cons, ha] using ih has

/-- Behaviour of `create_or_get_thread` when the key is present. -/
theorem createOrGet_found {s : String} {p : List String} {sum : Option String}
    {σ : Store} {t : ThreadRow}
    (h : σ.threads.find? (fun x => x.thread_id == generate_thread_id s p) =
      some t) :
    create_or_get_thread s p sum σ = (t, σ) := by
  simp [create_or_get_thread, h]

/-- Behaviour of `create_or_get_thread` when the key is absent: a fresh
thread row with `email_count = 0` is appended. -/
theorem createOrGet_notfound {s : String} {p : List String}
    {sum : Option String} {σ : Store}
    (h : σ.threads.find? (fun x => x.thread_id == generate_thread_id s p) =
      none) :
    create_or_get_thread s p sum σ =
      ({ id := σ.nextThreadRowId
         thread_id := generate_thread_id s p
         subject := s
         thread_summary := pyOrStr sum ("Email thread: " ++ pyOrStr (some s) "No subject")
         email_count := 0
         first_email_id := none
         last_email_id := none },
       { σ with
           threads := σ.threads ++
             [{ id := σ.nextThreadRowId
                thread_id := generate_thread_id s p
                subject := s
                thread_summary :=
                  pyOrStr sum ("Email thread: " ++ pyOrStr (some s) "No subject")
                email_count := 0
                first_email_id := none
                last_email_id := none }]
           nextThreadRowId := σ.nextThreadRowId + 1 }) := by
  simp [create_or_get_thread, h]

/-- Two `create_or_get_thread` calls whose inputs hash to the same thread
key: the second call returns the first call's thread and leaves the store
unchanged. -/
theorem createOrGet_key_eq {s1 s2 : String} {p1 p2 : List String}
    {sum1 sum2 : Option String} {σ : Store}
    (hk : generate_thread_id s1 p1 = generate_thread_id s2 p2) :
    create_or_get_thread s2 p2 sum2 (create_or_get_thread s1 p1 sum1 σ).2 =
      ((create_or_get_thread s1 p1 sum1 σ).1,
       (create_or_get_thread s1 p1 sum1 σ).2) := by
  rcases hfind : σ.threads.find?
      (fun t => t.thread_id == generate_thread_id s1 p1) with _ | t
  · rw [createOrGet_notfound hfind]
    refine createOrGet_found ?_
    rw [← hk]
    exact find?_append_singleton _ _ _ hfind (by simp)
  · rw [createOrGet_found hfind]
    refine createOrGet_found ?_
    rw [← hk]
    exact hfind

/-- Insertion keeps exactly the inserted element and the old elements. -/
theorem mem_insertStr {x y : String} {l : List String}
    (h : x ∈ insertStr y l) : x = y ∨ x ∈ l := by
  induction l with
  | nil => simpa [insertStr] using h
  | cons a as ih =>
    by_cases hlt : strLt a y
    · simp only [insertStr, hlt, if_pos] at h
      rcases List.mem_cons.mp h with h | h
      · exact Or.inr (by simp [h])
      · rcases ih h with h | h
        · exact Or.inl h
        · exact Or.inr (by simp [h])
    · simp only [insertStr, if_neg hlt] at h
      rcases List.mem_cons.mp h with h | h
      · exact Or.inl h
      · exact Or.inr h

/-- Sorting introduces no new elements. -/
theorem mem_sortStrings {x : String} {l : List String}
    (h : x ∈ sortStrings l) : x ∈ l := by
  induction l with
  | nil => simp [sortStrings] at h
  | cons a as ih =>
    rcases mem_insertStr (show x ∈ insertStr a (sortStrings as) from h) with h | h
    · simp [h]
    · exact List.mem_cons.mpr (Or.inr (ih h))

/-- Insertion never yields the empty list. -/
theorem insertStr_ne_nil (y : String) (l : List String) : insertStr y l ≠ [] := by
  cases l with
  | nil => simp [insertStr]
  | cons a as =>
    by_cases hlt : strLt a y <;> simp [insertStr, hlt]

/-- Sorting a non-empty list yields a non-empty list. -/
theorem sortStrings_ne_nil {l : List String} (h : l ≠ []) :
    sortStrings l ≠ [] := by
  cases l with
  | nil => exact absurd rfl h
  | cons a as => exact insertStr_ne_nil a (sortStrings as)

/-- Taking while not-colon over a colon-free list keeps everything. -/
theorem takeWhile_no_colon {l : List Char} (h : ∀ c ∈ l, c ≠ ':') :
    l.takeWhile (fun c => c != ':') = l := by
  induction l with
  | nil => rfl
  | cons a as ih =>
    have ha : (a != ':') = true := by
      simpa using h a (by simp)
    simp only [List.takeWhile_cons, ha, if_pos]
    rw [ih (fun c hc => h c (by simp [hc]))]

/-- Taking while not-colon over a colon-free list followed by a colon
recovers exactly the colon-free part. -/
theorem takeWhile_until_colon {l rest : List Char} (h : ∀ c ∈ l, c ≠ ':') :
    (l ++ ':' :: rest).takeWhile (fun c => c != ':') = l := by
  induction l with
  | nil => simp [List.takeWhile_cons]
  | cons a as ih =>
    have ha : (a != ':') = true := by
      simpa using h a (by simp)
    simp only [List.cons_append, List.takeWhile_cons, ha, if_pos]
    rw [ih (fun c hc => h c (by simp [hc]))]

/-- The character data of a colon-joined list headed by `q`. -/
theorem strJoin_head_data (q : String) (l : List String) :
    (strJoin ":" (q :: l)).data =
      match l with
      | [] => q.data
      | b :: bs => q.data ++ ':' :: (strJoin ":" (b :: bs)).data := by
  cases l with
  | nil => rfl
  | cons b bs =>
    show (q ++ ":" ++ strJoin ":" (b :: bs)).data = _
    simp [String.data_append]

/-- Two colon-joins with colon-free heads agree only if the heads agree. -/
theorem strJoin_head_inj (q1 q2 : String) (l1 l2 : List String)
    (h1 : ∀ c ∈ q1.data, c ≠ ':') (h2 : ∀ c ∈ q2.data, c ≠ ':')
    (he : strJoin ":" (q1 :: l1) = strJoin ":" (q2 :: l2)) : q1 = q2 := by
  have hd := congrArg String.data he
  have ht1 : (strJoin ":" (q1 :: l1)).data.takeWhile (fun c => c != ':') =
      q1.data := by
    rw [strJoin_head_data]
    cases l1 with
    | nil => exact takeWhile_no_colon h1
    | cons b bs => exact takeWhile_until_colon h1
  have ht2 : (strJoin ":" (q2 :: l2)).data.takeWhile (fun c => c != ':') =
      q2.data := by
    rw [strJoin_head_data]
    cases l2 with
    | nil => exact takeWhile_no_colon h2
    | cons b bs => exact takeWhile_until_colon h2
  have hde : q1.data = q2.data := by rw [← ht1, ← ht2, hd]
  cases q1 with
  | mk d1 =>
    cases q2 with
    | mk d2 => exact congrArg String.mk (by simpa using hde)

/-- Creating or getting a thread never touches the email rows. -/
theorem createOrGet_emails (s : String) (p : List String)
    (sum : Option String) (σ : Store) :
    (create_or_get_thread s p sum σ).2.emails = σ.emails := by
  rcases hfind : σ.threads.find?
      (fun t => t.thread_id == generate_thread_id s p) with _ | t
  · rw [createOrGet_notfound hfind]
  · rw [createOrGet_found hfind]

/-- Updating the row with a fresh id in an appended list rewrites only
the appended element. -/
theorem map_update_append {l : List EmailRow} {x : EmailRow} {n : Nat}
    {f : EmailRow → EmailRow} (hx : x.id = n) (h : ∀ e ∈ l, e.id ≠ n) :
    (l ++ [x]).map (fun e => if e.id = n then f e else e) = l ++ [f x] := by
  rw [List.map_append]
  congr 1
  · conv_rhs => rw [← List.map_id l]
    exact List.map_congr_left (fun e he => by simp [h e he])
  · simp [hx]

/-- Specialization of `find?_append_singleton` to the id probe on email
rows. -/
theorem find?_id_append {l : List EmailRow} {x : EmailRow} {n : Nat}
    (hno : l.find? (fun e => e.id == n) = none) (hx : x.id = n) :
    (l ++ [x]).find? (fun e => e.id == n) = some x :=
  find?_append_singleton _ l x hno (by simp [hx])

/-- Specialization of `find?_append_singleton` to the id probe on raw
rows. -/
theorem find?_raw_append {l : List RawRow} {x : RawRow} {n : Nat}
    (hno : l.find? (fun r => r.id == n) = none) (hx : x.id = n) :
    (l ++ [x]).find? (fun r => r.id == n) = some x :=
  find?_append_singleton _ l x hno (by simp [hx])

/-- Characterization of `process_webhook_email` when the duplicate check
misses: the insertion branch runs. -/
theorem process_webhook_email_not_dup (fail : ThreadFailure) (gen : String)
    (raw : RawRow) (payload : WebhookPayload) (user_id : Nat)
    (st : IngestState)
    (hdup : check_duplicate_email payload.MessageID
      ((extract_email_identifier payload.Headers).getD gen) st = none) :
    process_webhook_email fail gen raw payload user_id st =
      (let newEmail : EmailRow :=
        { id := st.nextEmailId
          user_id
          raw_email_id := raw.id
          message_id := payload.MessageID
          email_identifier := (extract_email_identifier payload.Headers).getD gen
          parent_email_identifier := extract_parent_email_identifier payload.Headers
          parent_email_id :=
            get_parent_email_id (extract_parent_email_identifier payload.Headers) st
          subject := payload.Subject
          thread_id := none
          thread_position := 0 }
      let st1 := { st with
        store := { st.store with emails := st.store.emails ++ [newEmail] }
        nextEmailId := st.nextEmailId + 1 }
      let pair := save_recipients payload newEmail.id st1
      let st3 := assign_email_to_thread fail payload newEmail.id pair.1 pair.2
      let st4 := { st3 with
        attachmentsCount :=
          st3.attachmentsCount ++ [(newEmail.id, payload.Attachments.length)]
        headersCount :=
          st3.headersCount ++ [(newEmail.id, payload.Headers.length)] }
      let st5 := { st4 with
        raws := st4.raws.map (fun r =>
          if r.id = raw.id then { r with processing_status := .PROCESSED }
          else r) }
      (((st5.store.emails.find? (fun e => e.id == newEmail.id)).getD newEmail),
        st5)) := by
  simp only [process_webhook_email, hdup]

/-! ## Claim theorems -/

/-- C9: for every `page ≥ 1`, `limit ≥ 1` and `total_items ≥ 0`,
`PaginationInfo.create` returns `total_pages = ceil(total_items / limit)`,
`has_next = (page < total_pages)` and `has_previous = (page > 1)`; with
`total_items = 45, limit = 20` it yields `total_pages = 3`, page 1 has
`has_next` and not `has_previous`, page 3 the reverse. -/
theorem C9_pagination_math (page limit total_items : Nat)
    (_hp : 1 ≤ page) (hl : 1 ≤ limit) :
    (PaginationInfo.create page limit total_items).total_pages =
        total_items ⌈/⌉ limit ∧
    ((PaginationInfo.create page limit total_items).has_next = true ↔
        page < (PaginationInfo.create page limit total_items).total_pages) ∧
    ((PaginationInfo.create page limit total_items).has_previous = true ↔
        1 < page) ∧
    (PaginationInfo.create 1 20 45).total_pages = 3 ∧
    (PaginationInfo.create 1 20 45).has_next = true ∧
    (PaginationInfo.create 1 20 45).has_previous = false ∧
    (PaginationInfo.create 3 20 45).has_next = false ∧
    (PaginationInfo.create 3 20 45).has_previous = true := by
  refine ⟨?_, by simp [PaginationInfo.create], by simp [PaginationInfo.create],
    by decide, by decide, by decide, by decide, by decide⟩
  simp only [PaginationInfo.create, Nat.ceilDiv_eq_add_pred_div]
  split
  · rfl
  · rename_i h
    have ht : total_items = 0 := by omega
    subst ht
    rw [Nat.zero_add, Nat.div_eq_of_lt (by omega)]

/-- C9 witness: the pagination theorem instantiated at
`page = 2, limit = 20, total_items = 45`. -/
theorem C9_pagination_math_witness :
    1 ≤ 2 ∧ 1 ≤ 20 ∧
    ((PaginationInfo.create 2 20 45).total_pages = 45 ⌈/⌉ 20 ∧
     ((PaginationInfo.create 2 20 45).has_next = true ↔
        2 < (PaginationInfo.create 2 20 45).total_pages) ∧
     ((PaginationInfo.create 2 20 45).has_previous = true ↔ 1 < 2) ∧
     (PaginationInfo.create 1 20 45).total_pages = 3 ∧
     (PaginationInfo.create 1 20 45).has_next = true ∧
     (PaginationInfo.create 1 20 45).has_previous = false ∧
     (PaginationInfo.create 3 20 45).has_next = false ∧
     (PaginationInfo.create 3 20 45).has_previous = true) :=
  ⟨by decide, by decide, C9_pagination_math 2 20 45 (by decide) (by decide)⟩

/-- C8: a `sort_by` value outside the request-model allow-lists raises a
validation error (both the email and the thread list request), the email
retrieval service falls back to the default `"sent_at"` for any value
outside its own allow-list, and every value the request models accept is
allow-listed and is the exact column the services order by — so a query
is never ordered by an arbitrary caller-chosen column. -/
theorem C8_sort_allow_list (v : String) :
    (v ∉ emailSortAllowedFields →
      email_validate_sort_by v = .error "sort_by must be one of: ...") ∧
    (v ∉ threadSortAllowedFields →
      thread_validate_sort_by v = .error "sort_by must be one of: ...") ∧
    (v ∉ allowedSortColumns → validate_sort_column v = "sent_at") ∧
    (∀ w, email_validate_sort_by v = .ok w →
      w ∈ emailSortAllowedFields ∧ validate_sort_column w = w) ∧
    (∀ w, thread_validate_sort_by v = .ok w →
      w ∈ threadSortAllowedFields ∧ threadQueryOrder w = some w) := by
  refine ⟨fun h => by simp [email_validate_sort_by, h],
    fun h => by simp [thread_validate_sort_by, h],
    fun h => by simp [validate_sort_column, h], ?_, ?_⟩
  · intro w hw
    by_cases h : v ∈ emailSortAllowedFields
    · simp only [email_validate_sort_by, if_pos h] at hw
      cases hw
      refine ⟨h, ?_⟩
      fin_cases h <;> decide
    · simp [email_validate_sort_by, h] at hw
  · intro w hw
    by_cases h : v ∈ threadSortAllowedFields
    · simp only [thread_validate_sort_by, if_pos h] at hw
      cases hw
      refine ⟨h, ?_⟩
      fin_cases h <;> decide
    · simp [thread_validate_sort_by, h] at hw

/-- C8 witness: requesting `sort_by = "password"` is rejected by both
request models and falls back to `"sent_at"` in the retrieval service. -/
theorem C8_sort_allow_list_witness :
    email_validate_sort_by "password" = .error "sort_by must be one of: ..." ∧
    thread_validate_sort_by "password" = .error "sort_by must be one of: ..." ∧
    validate_sort_column "password" = "sent_at" :=
  ⟨(C8_sort_allow_list "password").1 (by decide),
   (C8_sort_allow_list "password").2.1 (by decide),
   (C8_sort_allow_list "password").2.2.1 (by decide)⟩

/-- C7: `parse_date` returns the parsed datetime when the standard
parser succeeds, but on an unparseable date string it raises
`AttributeError` (the handler's `datetime.timezone` lookup is invalid)
instead of returning the current time as the claim states. -/
theorem C7_parse_date_raises_on_bad_date :
    parse_date (fun _ => some 1700000000) "Tue, 02 Jan 2024 03:04:05 +0000" =
      .ok 1700000000 ∧
    parse_date (fun _ => none) "not a date" =
      .error
        "AttributeError: type object 'datetime.datetime' has no attribute 'timezone'" :=
  ⟨rfl, rfl⟩

/-- C6: for every combination of agent dict results, exception objects in
the gathered slots and orchestrator-level escapes, the detached processor
leaves the email's actionables status at PROCESSED or FAILED — never at
PROCESSING. -/
theorem C6_status_never_stuck (email_id : Nat) (h : email_id ≠ 0)
    (orchRaises : Bool) (calendar notes shopping : PyVal) (st : ActState) :
    (process_actionables_detached email_id orchRaises
        calendar notes shopping st).status = .PROCESSED ∨
    (process_actionables_detached email_id orchRaises
        calendar notes shopping st).status = .FAILED := by
  cases orchRaises <;>
    cases calendar <;> cases notes <;> cases shopping <;>
    simp [process_actionables_detached, process_actionables, run_all_agents,
      getSlot, isExceptionVal, update_email_actionables_status, h]

/-- C6 witness: the never-stuck theorem instantiated at a run where the
calendar slot holds an exception object and the orchestrator does not
throw. -/
theorem C6_status_never_stuck_witness :
    (1 : Nat) ≠ 0 ∧
    ((process_actionables_detached 1 false (.exc "boom")
        (.dict { success := true, data := some "n" })
        (.dict { success := true, data := some "s" })
        { status := .PENDING }).status = .PROCESSED ∨
     (process_actionables_detached 1 false (.exc "boom")
        (.dict { success := true, data := some "n" })
        (.dict { success := true, data := some "s" })
        { status := .PENDING }).status = .FAILED) :=
  ⟨by decide,
   C6_status_never_stuck 1 (by decide) false (.exc "boom")
     (.dict { success := true, data := some "n" })
     (.dict { success := true, data := some "s" })
     { status := .PENDING }⟩

/-- C1: when the calendar agent raises while notes and shopping succeed,
`run_all_agents` does return the two valid sibling results, but the
detached processor marks the email PROCESSED with no error message — not
FAILED with a message naming "Calendar" as the claim states — because
`run_all_agents` converts the exception into a `{"success": False}` dict
that the `isinstance(..., Exception)` checks never match. -/
theorem C1_calendar_failure_marked_processed :
    run_agent_task (.raises "calendar boom") =
      { success := false, error := some "calendar boom" } ∧
    (run_all_agents (.dict (run_agent_task (.raises "calendar boom")))
        (.dict (run_agent_task (.outputs "notes data")))
        (.dict (run_agent_task (.outputs "shopping data")))).notes =
      .dict { success := true, data := some "notes data" } ∧
    (run_all_agents (.dict (run_agent_task (.raises "calendar boom")))
        (.dict (run_agent_task (.outputs "notes data")))
        (.dict (run_agent_task (.outputs "shopping data")))).shopping =
      .dict { success := true, data := some "shopping data" } ∧
    process_actionables_detached 1 false
        (.dict (run_agent_task (.raises "calendar boom")))
        (.dict (run_agent_task (.outputs "notes data")))
        (.dict (run_agent_task (.outputs "shopping data")))
        { status := .PENDING } =
      { status := .PROCESSED, error_message := none, processed_at_set := true } := by
  decide

/-- C3: adding two emails to one thread assigns `thread_position` 0 to
both (the second max-position read returns 0, which Python's
`scalar() or -1` treats as missing), while `email_count` correctly
reaches 2 — the positions are not the contiguous `0, 1` the claim
states. -/
theorem C3_thread_positions_collapse_to_zero :
    (((add_email_to_thread 12 1
        (add_email_to_thread 11 1
          { emails :=
              [{ id := 11, user_id := 7, raw_email_id := 1, message_id := "m1",
                 email_identifier := "i1", parent_email_identifier := none,
                 parent_email_id := none, subject := "Project X",
                 thread_id := none, thread_position := 0 },
               { id := 12, user_id := 7, raw_email_id := 2, message_id := "m2",
                 email_identifier := "i2", parent_email_identifier := none,
                 parent_email_id := none, subject := "Re: Project X",
                 thread_id := none, thread_position := 0 }]
            threads :=
              [{ id := 1, thread_id := "key", subject := "Project X",
                 thread_summary := "", email_count := 0,
                 first_email_id := none, last_email_id := none }]
            nextThreadRowId := 2 })).emails.map
        (fun e => (e.thread_id, e.thread_position))) =
      [(some 1, 0), (some 1, 0)]) ∧
    (((add_email_to_thread 12 1
        (add_email_to_thread 11 1
          { emails :=
              [{ id := 11, user_id := 7, raw_email_id := 1, message_id := "m1",
                 email_identifier := "i1", parent_email_identifier := none,
                 parent_email_id := none, subject := "Project X",
                 thread_id := none, thread_position := 0 },
               { id := 12, user_id := 7, raw_email_id := 2, message_id := "m2",
                 email_identifier := "i2", parent_email_identifier := none,
                 parent_email_id := none, subject := "Re: Project X",
                 thread_id := none, thread_position := 0 }]
            threads :=
              [{ id := 1, thread_id := "key", subject := "Project X",
                 thread_summary := "", email_count := 0,
                 first_email_id := none, last_email_id := none }]
            nextThreadRowId := 2 })).threads.map
        (fun t => (t.email_count, t.first_email_id, t.last_email_id))) =
      [(2, some 11, some 12)]) := by
  decide

/-- C5 counterexample: normalizing `"Re: Fwd: X"` strips two markers in a
single normalization and yields `"x"` — not one of the two results
(`"re: fwd: x"` or `"fwd: x"`) compatible with the claim that at most one
marker is ever removed. -/
theorem C5_counterexample_two_markers_stripped :
    normalize_subject "Re: Fwd: X" = "x" ∧
    normalize_subject "Re: Fwd: X" ≠ "re: fwd: x" ∧
    normalize_subject "Re: Fwd: X" ≠ "fwd: x" := by
  decide

/-- C5 amended: `_normalize_subject` trims, lowercases and then strips a
subsequence of the marker list `re:, fwd:, fw:, forward:, reply:` — at
most one occurrence of each marker, scanned once in that fixed order, so
repeated markers survive (`"Re: Re: X"` keeps one `re:` and
`"Re: Re: Fwd: X"` keeps two markers) while distinct markers in list
order are all removed. -/
theorem C5_amended_each_marker_stripped_at_most_once (s : String) :
    (∃ l, l.Sublist replyMarkers ∧
      stripExactSeq l (pyLower (pyStrip s)) = some (normalize_subject s)) ∧
    normalize_subject "Re: Re: X" = "re: x" ∧
    normalize_subject "Re: Re: Fwd: X" = "re: fwd: x" := by
  refine ⟨?_, by decide, by decide⟩
  by_cases hs : s = ""
  · subst hs
    exact ⟨[], List.nil_sublist _, by decide⟩
  · simpa [normalize_subject, hs] using
      foldl_stripMarkerStep_subseq replyMarkers (pyLower (pyStrip s))

/-- C4 counterexample: the two participant lists `["a:b"]` and
`["a", "b"]` are disjoint (as sets of address strings), yet with the same
subject they produce the same joined key data, hence the same MD5 thread
key, and `create_or_get_thread` hands back the very thread created for
the first email instead of a distinct one. -/
theorem C4_counterexample_disjoint_participants_same_thread :
    (∀ a ∈ ["a:b"], a ∉ ["a", "b"]) ∧
    create_or_get_thread "Project X" ["a", "b"] none
        (create_or_get_thread "Project X" ["a:b"] none
          { emails := [], threads := [], nextThreadRowId := 1 }).2 =
      ((create_or_get_thread "Project X" ["a:b"] none
          { emails := [], threads := [], nextThreadRowId := 1 }).1,
       (create_or_get_thread "Project X" ["a:b"] none
          { emails := [], threads := [], nextThreadRowId := 1 }).2) :=
  ⟨by decide,
   createOrGet_key_eq (congrArg md5hex (by decide :
     threadKeyData "Project X" ["a:b"] = threadKeyData "Project X" ["a", "b"]))⟩

/-- C4 amended: two emails whose subjects normalize identically and whose
participant lists sort identically are assigned the same thread (the
second `create_or_get_thread` call returns the first's thread, store
unchanged); and for the same subject with disjoint, non-empty participant
sets of colon-free addresses the pre-hash key data differ, so the MD5
thread keys — and hence the threads — differ except on an MD5 collision.
With colon-containing addresses disjoint participant sets can collapse to
one thread. -/
theorem C4_amended_thread_key_determinism :
    (∀ (s1 s2 : String) (p1 p2 : List String) (sum1 sum2 : Option String)
        (σ : Store),
      normalize_subject s1 = normalize_subject s2 →
      sortStrings p1 = sortStrings p2 →
      create_or_get_thread s2 p2 sum2 (create_or_get_thread s1 p1 sum1 σ).2 =
        ((create_or_get_thread s1 p1 sum1 σ).1,
         (create_or_get_thread s1 p1 sum1 σ).2)) ∧
    (∀ (s : String) (p1 p2 : List String),
      p1 ≠ [] → p2 ≠ [] →
      (∀ a ∈ p1, ∀ c ∈ a.data, c ≠ ':') →
      (∀ a ∈ p2, ∀ c ∈ a.data, c ≠ ':') →
      (∀ a ∈ p1, a ∉ p2) →
      threadKeyData s p1 ≠ threadKeyData s p2) := by
  constructor
  · intro s1 s2 p1 p2 sum1 sum2 σ hn hp
    exact createOrGet_key_eq (by
      unfold generate_thread_id threadKeyData
      rw [hn, hp])
  · intro s p1 p2 hne1 hne2 hc1 hc2 hdisj he
    have hjoin : strJoin ":" (sortStrings p1) = strJoin ":" (sortStrings p2) := by
      unfold threadKeyData at he
      have hd := congrArg String.data he
      simp only [String.data_append] at hd
      have hd2 := List.append_cancel_left hd
      cases hj1 : strJoin ":" (sortStrings p1) with
      | mk d1 =>
        cases hj2 : strJoin ":" (sortStrings p2) with
        | mk d2 =>
          rw [hj1, hj2] at hd2
          exact congrArg String.mk (by simpa using hd2)
    obtain ⟨q1, l1, hq1⟩ : ∃ q1 l1, sortStrings p1 = q1 :: l1 := by
      cases hh : sortStrings p1 with
      | nil => exact absurd hh (sortStrings_ne_nil hne1)
      | cons q l => exact ⟨q, l, rfl⟩
    obtain ⟨q2, l2, hq2⟩ : ∃ q2 l2, sortStrings p2 = q2 :: l2 := by
      cases hh : sortStrings p2 with
      | nil => exact absurd hh (sortStrings_ne_nil hne2)
      | cons q l => exact ⟨q, l, rfl⟩
    have hq1mem : q1 ∈ p1 := mem_sortStrings (hq1 ▸ List.mem_cons_self q1 l1)
    have hq2mem : q2 ∈ p2 := mem_sortStrings (hq2 ▸ List.mem_cons_self q2 l2)
    have hqq : q1 = q2 := by
      refine strJoin_head_inj q1 q2 l1 l2 (hc1 q1 hq1mem) (hc2 q2 hq2mem) ?_
      rw [← hq1, ← hq2]
      exact hjoin
    exact hdisj q1 hq1mem (hqq ▸ hq2mem)

/-- C4 amended witness: the determinism half instantiated at subjects
`"Project X"`, `"Re: Project X"` with equal participant lists on the
empty store, and the distinctness half at subject `"s"` with disjoint
colon-free participant sets `{"a@x"}` and `{"b@x"}`. -/
theorem C4_amended_thread_key_determinism_witness :
    (normalize_subject "Project X" = normalize_subject "Re: Project X" ∧
     sortStrings ["a@x", "b@x"] = sortStrings ["b@x", "a@x"] ∧
     create_or_get_thread "Re: Project X" ["b@x", "a@x"] none
        (create_or_get_thread "Project X" ["a@x", "b@x"] none
          { emails := [], threads := [], nextThreadRowId := 1 }).2 =
       ((create_or_get_thread "Project X" ["a@x", "b@x"] none
          { emails := [], threads := [], nextThreadRowId := 1 }).1,
        (create_or_get_thread "Project X" ["a@x", "b@x"] none
          { emails := [], threads := [], nextThreadRowId := 1 }).2)) ∧
    threadKeyData "s" ["a@x"] ≠ threadKeyData "s" ["b@x"] :=
  ⟨⟨by decide, by decide,
    C4_amended_thread_key_determinism.1 "Project X" "Re: Project X"
      ["a@x", "b@x"] ["b@x", "a@x"] none none
      { emails := [], threads := [], nextThreadRowId := 1 }
      (by decide) (by decide)⟩,
   C4_amended_thread_key_determinism.2 "s" ["a@x"] ["b@x"]
     (by decide) (by decide) (by decide) (by decide) (by decide)⟩

/-- C2: submitting the same payload twice leaves exactly one Email row
and performs no further structured writes, and a second payload with a
different `message_id` but the same derived identifier is also recognized
— but the result dictionary of the cited
`WebhookProcessingService.process_postmark_webhook` reports
`duplicate = "false"` and the freshly inserted raw record's id (not the
existing email's raw id) on the duplicate call, contradicting the claimed
`duplicate: true` response. -/
theorem C2_duplicate_submission_reports_false :
    let payload1 : WebhookPayload :=
      { From := "alice@example.com"
        FromFull := { Email := "alice@example.com" }
        ToFull := [{ Email := "inbox@example.com" }]
        Subject := "Hello"
        MessageID := "pm-1"
        Headers := [{ Name := "Message-Id", Value := "mid-1" }] }
    let payload2 : WebhookPayload :=
      { From := "alice@example.com"
        FromFull := { Email := "alice@example.com" }
        ToFull := [{ Email := "inbox@example.com" }]
        Subject := "Hello"
        MessageID := "pm-2"
        Headers := [{ Name := "Message-Id", Value := "mid-1" }] }
    let st0 : IngestState :=
      { store := { emails := [], threads := [], nextThreadRowId := 1 }
        raws := []
        recipients := []
        attachmentsCount := []
        headersCount := []
        nextEmailId := 1
        nextRawId := 1 }
    let run1 := process_postmark_webhook .noFail "gen-1" payload1 7 st0
    let run2 := process_postmark_webhook .noFail "gen-2" payload1 7 run1.2
    let run3 := process_postmark_webhook .noFail "gen-3" payload2 7 run1.2
    run1.1.duplicate = "false" ∧
    run2.1 = { email_id := 1, raw_email_id := 2, message_id := "pm-1",
               attachments_count := 0, duplicate := "false" } ∧
    run2.2.store.emails.map (fun e => (e.id, e.raw_email_id, e.message_id)) =
      [(1, 1, "pm-1")] ∧
    run2.2.recipients = run1.2.recipients ∧
    run2.2.attachmentsCount = run1.2.attachmentsCount ∧
    run2.2.headersCount = run1.2.headersCount ∧
    run3.1 = { email_id := 1, raw_email_id := 2, message_id := "pm-1",
               attachments_count := 0, duplicate := "false" } := by
  exact ⟨rfl, rfl, rfl, rfl, rfl, rfl, rfl⟩

/-- C10 counterexample: when `add_email_to_thread` raises (its first
statement has already set `email.thread_id`), the exception is caught and
the Email row commits with `thread_id` SET to the thread — not unset as
the claim states — while the raw record is still marked PROCESSED and
the call still reports success with `duplicate = "false"`. -/
theorem C10_counterexample_add_failure_leaves_thread_id_set :
    let payload : WebhookPayload :=
      { From := "alice@example.com"
        FromFull := { Email := "alice@example.com" }
        ToFull := [{ Email := "inbox@example.com" }]
        Subject := "Hello"
        MessageID := "pm-1"
        Headers := [{ Name := "Message-Id", Value := "mid-1" }] }
    let st0 : IngestState :=
      { store := { emails := [], threads := [], nextThreadRowId := 1 }
        raws := []
        recipients := []
        attachmentsCount := []
        headersCount := []
        nextEmailId := 1
        nextRawId := 1 }
    let run := process_postmark_webhook .atAdd "gen-1" payload 7 st0
    run.2.store.emails.map (fun e => (e.id, e.thread_id)) = [(1, some 1)] ∧
    some (1 : Nat) ≠ (none : Option Nat) ∧
    run.1.duplicate = "false" ∧
    run.2.raws.map (fun r => (r.id, r.processing_status)) =
      [(1, .PROCESSED)] := by
  exact ⟨rfl, by decide, rfl, rfl⟩

/-- C10 amended: if thread assignment raises during ingestion of a new
email the exception is caught and discarded: the Email row is still
committed — with `thread_id` unset when `create_or_get_thread` raised,
but with `thread_id` already set to the thread when `add_email_to_thread`
raised — the raw record is still marked PROCESSED, and
`process_postmark_webhook` returns a success result with duplicate
false. -/
theorem C10_amended_thread_failure_swallowed
    (payload : WebhookPayload) (gen : String) (user : Nat) (σ : IngestState)
    (hwfE : ∀ e ∈ σ.store.emails, e.id < σ.nextEmailId)
    (hwfR : ∀ r ∈ σ.raws, r.id < σ.nextRawId)
    (fail : ThreadFailure) (hf : fail ≠ .noFail)
    (hdup : check_duplicate_email payload.MessageID
      ((extract_email_identifier payload.Headers).getD gen) σ = none) :
    (process_postmark_webhook fail gen payload user σ).1.duplicate = "false" ∧
    (process_postmark_webhook fail gen payload user σ).1.email_id =
      σ.nextEmailId ∧
    (process_postmark_webhook fail gen payload user σ).2.raws.find?
        (fun r => r.id == σ.nextRawId) =
      some { id := σ.nextRawId, processing_status := .PROCESSED } ∧
    (∃ e, (process_postmark_webhook fail gen payload user σ).2.store.emails.find?
        (fun x => x.id == σ.nextEmailId) = some e ∧
      e.message_id = payload.MessageID ∧
      (fail = .atCreate → e.thread_id = none) ∧
      (fail = .atAdd → ∃ tid, e.thread_id = some tid)) := by
  have hnoE : σ.store.emails.find? (fun x => x.id == σ.nextEmailId) = none := by
    rw [List.find?_eq_none]
    intro e he
    simp [Nat.ne_of_lt (hwfE e he)]
  have hnoR : σ.raws.find? (fun r => r.id == σ.nextRawId) = none := by
    rw [List.find?_eq_none]
    intro r hr
    simp [Nat.ne_of_lt (hwfR r hr)]
  have hrawmap : ∀ raw : RawRow, raw.id = σ.nextRawId →
      (σ.raws ++ [raw]).map (fun r =>
        if r.id = σ.nextRawId then { r with processing_status := .PROCESSED }
        else r) =
      σ.raws ++ [{ raw with processing_status := .PROCESSED }] := by
    intro raw hid
    rw [List.map_append]
    congr 1
    · conv_rhs => rw [← List.map_id σ.raws]
      refine List.map_congr_left (fun r hr => ?_)
      simp [Nat.ne_of_lt (hwfR r hr)]
    · simp [hid]
  have hdup1 : check_duplicate_email payload.MessageID
      ((extract_email_identifier payload.Headers).getD gen)
      { σ with
          raws := σ.raws ++
            [{ id := σ.nextRawId, processing_status := .PENDING }]
          nextRawId := σ.nextRawId + 1 } = none := hdup
  have hchar := process_webhook_email_not_dup fail gen
    { id := σ.nextRawId, processing_status := .PENDING } payload user
    { σ with
        raws := σ.raws ++
          [{ id := σ.nextRawId, processing_status := .PENDING }]
        nextRawId := σ.nextRawId + 1 }
    hdup1
  cases fail with
  | noFail => exact absurd rfl hf
  | atCreate =>
    simp only [process_postmark_webhook, save_raw_email]
    rw [hchar]
    simp only [assign_email_to_thread, save_recipients]
    refine ⟨trivial, ?_, ?_, ?_⟩
    · rw [find?_id_append hnoE rfl]
      rfl
    · rw [hrawmap _ rfl]
      rw [find?_raw_append hnoR rfl]
    · exact ⟨_, find?_id_append hnoE rfl, rfl, fun _ => rfl,
        fun h => absurd h (by decide)⟩
  | atAdd =>
    simp only [process_postmark_webhook, save_raw_email]
    rw [hchar]
    simp only [assign_email_to_thread, save_recipients, updateEmail]
    rw [createOrGet_emails]
    rw [map_update_append (by exact rfl) (fun e he => Nat.ne_of_lt (hwfE e he))]
    refine ⟨trivial, ?_, ?_, ?_⟩
    · rw [find?_id_append hnoE (by exact rfl)]
      rfl
    · rw [hrawmap _ rfl]
      rw [find?_raw_append hnoR rfl]
    · exact ⟨_, find?_id_append hnoE (by exact rfl), rfl,
        fun h => absurd h (by decide), fun _ => ⟨_, rfl⟩⟩

/-- C10 amended witness: the amended theorem instantiated at a concrete
payload on the empty store with the failure inside
`create_or_get_thread`. -/
theorem C10_amended_thread_failure_swallowed_witness :
    (process_postmark_webhook .atCreate "gen-1"
        { From := "alice@example.com"
          FromFull := { Email := "alice@example.com" }
          Subject := "Hello"
          MessageID := "pm-1"
          Headers := [{ Name := "Message-Id", Value := "mid-1" }] } 7
        { store := { emails := [], threads := [], nextThreadRowId := 1 }
          raws := []
          recipients := []
          attachmentsCount := []
          headersCount := []
          nextEmailId := 1
          nextRawId := 1 }).1.duplicate = "false" ∧
    (process_postmark_webhook .atCreate "gen-1"
        { From := "alice@example.com"
          FromFull := { Email := "alice@example.com" }
          Subject := "Hello"
          MessageID := "pm-1"
          Headers := [{ Name := "Message-Id", Value := "mid-1" }] } 7
        { store := { emails := [], threads := [], nextThreadRowId := 1 }
          raws := []
          recipients := []
          attachmentsCount := []
          headersCount := []
          nextEmailId := 1
          nextRawId := 1 }).1.email_id = 1 ∧
    (process_postmark_webhook .atCreate "gen-1"
        { From := "alice@example.com"
          FromFull := { Email := "alice@example.com" }
          Subject := "Hello"
          MessageID := "pm-1"
          Headers := [{ Name := "Message-Id", Value := "mid-1" }] } 7
        { store := { emails := [], threads := [], nextThreadRowId := 1 }
          raws := []
          recipients := []
          attachmentsCount := []
          headersCount := []
          nextEmailId := 1
          nextRawId := 1 }).2.raws.find? (fun r => r.id == 1) =
      some { id := 1, processing_status := .PROCESSED } ∧
    (∃ e, (process_postmark_webhook .atCreate "gen-1"
        { From := "alice@example.com"
          FromFull := { Email := "alice@example.com" }
          Subject := "Hello"
          MessageID := "pm-1"
          Headers := [{ Name := "Message-Id", Value := "mid-1" }] } 7
        { store := { emails := [], threads := [], nextThreadRowId := 1 }
          raws := []
          recipients := []
          attachmentsCount := []
          headersCount := []
          nextEmailId := 1
          nextRawId := 1 }).2.store.emails.find? (fun x => x.id == 1) = some e ∧
      e.message_id = "pm-1" ∧
      (ThreadFailure.atCreate = .atCreate → e.thread_id = none) ∧
      (ThreadFailure.atCreate = .atAdd → ∃ tid, e.thread_id = some tid)) :=
  C10_amended_thread_failure_swallowed
    { From := "alice@example.com"
      FromFull := { Email := "alice@example.com" }
      Subject := "Hello"
      MessageID := "pm-1"
      Headers := [{ Name := "Message-Id", Value := "mid-1" }] }
    "gen-1" 7
    { store := { emails := [], threads := [], nextThreadRowId := 1 }
      raws := []
      recipients := []
      attachmentsCount := []
      headersCount := []
      nextEmailId := 1
      nextRawId := 1 }
    (by simp) (by simp) .atCreate (by decide) (by decide)

end PostmarkAgents
